import Mathlib

/-!
# Verification of the daybot-mcp real-time market-data ingestion core

A shallow embedding of `src/daybot_mcp/websocket_client.py` and
`src/daybot_mcp/polygon_client.py`.  Prices and times are modelled as
rationals, Python dicts keyed by symbol as total functions
`String → Option _` (matching `dict.get` semantics), the Python dict
returned by `get_latency_stats` as an association list of string keys,
and consumer callbacks as pure functions on an abstract world type `σ`
that return the new world together with an optional raised-exception
message (a `some` in the second component models the callback throwing).
-/

set_option autoImplicit false

namespace Daybot

/-- Canonical quote value (`websocket_client.py`, `class Quote`). -/
structure Quote where
  symbol : String
  bid_price : ℚ
  ask_price : ℚ
  bid_size : ℤ
  ask_size : ℤ
  timestamp : ℚ
  conditions : List String := []
  deriving DecidableEq, Repr

/-- `Quote.mid_price` property: `(self.bid_price + self.ask_price) / 2`. -/
def Quote.mid_price (q : Quote) : ℚ :=
  (q.bid_price + q.ask_price) / 2

/-- `Quote.spread` property: `self.ask_price - self.bid_price`. -/
def Quote.spread (q : Quote) : ℚ :=
  q.ask_price - q.bid_price

/-- `Quote.spread_bps` property:
`(self.spread / self.mid_price) * 10000 if self.mid_price > 0 else 0`. -/
def Quote.spread_bps (q : Quote) : ℚ :=
  if q.mid_price > 0 then (q.spread / q.mid_price) * 10000 else 0

/-- Canonical trade value (`websocket_client.py`, `class Trade`). -/
structure Trade where
  symbol : String
  price : ℚ
  size : ℤ
  timestamp : ℚ
  conditions : List String := []
  exchange : Option String := none
  deriving DecidableEq, Repr

/-- Canonical bar value (`websocket_client.py`, `class Bar`). -/
structure Bar where
  symbol : String
  «open» : ℚ
  high : ℚ
  low : ℚ
  close : ℚ
  volume : ℤ
  timestamp : ℚ
  vwap : Option ℚ := none
  deriving DecidableEq, Repr

/-- Canonical order-status update (`websocket_client.py`, `class OrderUpdate`). -/
structure OrderUpdate where
  order_id : String
  symbol : String
  side : String
  qty : ℚ
  status : String
  event : String
  timestamp : ℚ
  filled_qty : Option ℚ := none
  filled_price : Option ℚ := none
  remaining_qty : Option ℚ := none
  deriving DecidableEq, Repr

/-- A registered consumer callback over abstract world `σ`: it receives the
ingested value and the current world and returns the new world together with
`some msg` when it raises an exception with message `msg` (and `none` when it
returns normally). -/
def Callback (σ α : Type) : Type := α → σ → σ × Option String

/-- The `for callback in ...: try: callback(v) except Exception as e: logger.error(...)`
loop shared verbatim by `_handle_quote`, `_handle_trade`, `_handle_bar` and
`_handle_order_update`: each callback is invoked in registration order, an
exception is appended to the error log and dispatch continues with the next
callback. -/
def dispatchCallbacks {σ α : Type} :
    List (Callback σ α) → α → σ → List String → σ × List String
  | [], _, w, log => (w, log)
  | cb :: rest, v, w, log =>
    match cb v w with
    | (w', none) => dispatchCallbacks rest v w' log
    | (w', some e) => dispatchCallbacks rest v w' (log ++ [e])

/-- State of `MarketDataManager` (`websocket_client.py`): per-symbol callback
registries, the latest-value caches, and the latency/throughput metrics.
Dicts are total functions from symbol; a symbol never inserted maps to `[]`
(for callback dicts, matching `.get(symbol, [])`) or `none` (for the caches,
matching `.get(symbol)`). -/
structure MarketDataManager (σ : Type) where
  quote_callbacks : String → List (Callback σ Quote)
  trade_callbacks : String → List (Callback σ Trade)
  bar_callbacks : String → List (Callback σ Bar)
  order_callbacks : List (Callback σ OrderUpdate)
  latest_quotes : String → Option Quote
  latest_trades : String → Option Trade
  latest_bars : String → Option Bar
  message_count : ℕ
  last_message_time : ℚ
  latency_samples : List ℚ

namespace MarketDataManager

variable {σ : Type}

/-- `MarketDataManager.__init__`: empty registries and caches,
`message_count = 0`, `last_message_time = 0`, no latency samples. -/
def init : MarketDataManager σ where
  quote_callbacks := fun _ => []
  trade_callbacks := fun _ => []
  bar_callbacks := fun _ => []
  order_callbacks := []
  latest_quotes := fun _ => none
  latest_trades := fun _ => none
  latest_bars := fun _ => none
  message_count := 0
  last_message_time := 0
  latency_samples := []

/-- `subscribe_quotes`: append the callback to the symbol's list (creating the
entry when absent). -/
def subscribe_quotes (m : MarketDataManager σ) (symbol : String)
    (cb : Callback σ Quote) : MarketDataManager σ :=
  { m with quote_callbacks := fun s =>
      if s = symbol then m.quote_callbacks s ++ [cb] else m.quote_callbacks s }

/-- `subscribe_trades`. -/
def subscribe_trades (m : MarketDataManager σ) (symbol : String)
    (cb : Callback σ Trade) : MarketDataManager σ :=
  { m with trade_callbacks := fun s =>
      if s = symbol then m.trade_callbacks s ++ [cb] else m.trade_callbacks s }

/-- `subscribe_bars`. -/
def subscribe_bars (m : MarketDataManager σ) (symbol : String)
    (cb : Callback σ Bar) : MarketDataManager σ :=
  { m with bar_callbacks := fun s =>
      if s = symbol then m.bar_callbacks s ++ [cb] else m.bar_callbacks s }

/-- `subscribe_orders`: append to the single global list. -/
def subscribe_orders (m : MarketDataManager σ)
    (cb : Callback σ OrderUpdate) : MarketDataManager σ :=
  { m with order_callbacks := m.order_callbacks ++ [cb] }

/-- `get_latest_quote`: `self.latest_quotes.get(symbol)`. -/
def get_latest_quote (m : MarketDataManager σ) (symbol : String) : Option Quote :=
  m.latest_quotes symbol

/-- `get_latest_trade`: `self.latest_trades.get(symbol)`. -/
def get_latest_trade (m : MarketDataManager σ) (symbol : String) : Option Trade :=
  m.latest_trades symbol

/-- `get_latest_bar`: `self.latest_bars.get(symbol)`. -/
def get_latest_bar (m : MarketDataManager σ) (symbol : String) : Option Bar :=
  m.latest_bars symbol

/-- `_handle_quote`: store the quote as the latest for its symbol, then
dispatch to that symbol's registered quote callbacks (with per-callback
exception isolation). Returns the new manager, new world and error log. -/
def handle_quote (m : MarketDataManager σ) (q : Quote) (w : σ)
    (log : List String) : MarketDataManager σ × σ × List String :=
  let m' := { m with latest_quotes := fun s =>
      if s = q.symbol then some q else m.latest_quotes s }
  let r := dispatchCallbacks (m.quote_callbacks q.symbol) q w log
  (m', r.1, r.2)

/-- `_handle_trade`. -/
def handle_trade (m : MarketDataManager σ) (t : Trade) (w : σ)
    (log : List String) : MarketDataManager σ × σ × List String :=
  let m' := { m with latest_trades := fun s =>
      if s = t.symbol then some t else m.latest_trades s }
  let r := dispatchCallbacks (m.trade_callbacks t.symbol) t w log
  (m', r.1, r.2)

/-- `_handle_bar`. -/
def handle_bar (m : MarketDataManager σ) (b : Bar) (w : σ)
    (log : List String) : MarketDataManager σ × σ × List String :=
  let m' := { m with latest_bars := fun s =>
      if s = b.symbol then some b else m.latest_bars s }
  let r := dispatchCallbacks (m.bar_callbacks b.symbol) b w log
  (m', r.1, r.2)

/-- `_handle_order_update`: dispatch to the global order callbacks only; the
manager state itself is not written. -/
def handle_order_update (m : MarketDataManager σ) (u : OrderUpdate) (w : σ)
    (log : List String) : MarketDataManager σ × σ × List String :=
  let r := dispatchCallbacks m.order_callbacks u w log
  (m, r.1, r.2)

/-- `update_latency_metrics`: append `(now - message_time) * 1000` to the
sample list, pop the oldest sample when the list exceeds 1000 entries,
increment `message_count` and set `last_message_time := now`. -/
def update_latency_metrics (m : MarketDataManager σ) (message_time now : ℚ) :
    MarketDataManager σ :=
  let latency := (now - message_time) * 1000
  let samples := m.latency_samples ++ [latency]
  let samples := if samples.length > 1000 then samples.drop 1 else samples
  { m with latency_samples := samples,
           message_count := m.message_count + 1,
           last_message_time := now }

/-- Minimum of a nonempty sample list (Python built-in `min`); 0 on `[]`
(unreachable in the source, which guards on emptiness first). -/
def listMin : List ℚ → ℚ
  | [] => 0
  | x :: xs => xs.foldl min x

/-- Maximum of a nonempty sample list (Python built-in `max`); 0 on `[]`. -/
def listMax : List ℚ → ℚ
  | [] => 0
  | x :: xs => xs.foldl max x

/-- `get_latency_stats`: the returned Python dict, as an association list of
its keys in construction order.  On an empty sample buffer the source returns
a three-key dict of zeros; otherwise a five-key dict that also carries
`message_count` and `messages_per_second`. -/
def get_latency_stats (m : MarketDataManager σ) (now : ℚ) :
    List (String × ℚ) :=
  if m.latency_samples = [] then
    [("avg_latency_ms", 0), ("min_latency_ms", 0), ("max_latency_ms", 0)]
  else
    [("avg_latency_ms", m.latency_samples.sum / m.latency_samples.length),
     ("min_latency_ms", listMin m.latency_samples),
     ("max_latency_ms", listMax m.latency_samples),
     ("message_count", (m.message_count : ℚ)),
     ("messages_per_second",
       (m.message_count : ℚ) / max 1 (now - m.last_message_time + 60))]

end MarketDataManager

/-- Which feed adapter produced a message.  The Alpaca and Polygon adapters
share one `MarketDataManager`; after vendor parsing their dispatch code is
identical (`websocket_client.py` `_handle_message` vs `polygon_client.py`
`_handle_message`). -/
inductive Feed where
  | alpaca
  | polygon
  deriving DecidableEq, Repr

/-- A successfully parsed inbound frame, after the vendor-specific
`_parse_*` step: the data messages, the control/status messages that are
only logged, and a frame whose parser returned `None` (malformed). The
Polygon adapter produces no `orderUpdate` messages; the constructor is still
shared because the Alpaca trading stream is routed through the same manager. -/
inductive ParsedMsg where
  | quote (q : Quote)
  | trade (t : Trade)
  | bar (b : Bar)
  | orderUpdate (u : OrderUpdate)
  | control
  | malformed
  deriving Repr

/-- The body of `_handle_message` after parsing, identical in both adapters:
quote/trade/bar messages first call `update_latency_metrics(value.timestamp)`
(at wall-clock time `now`) and then the corresponding `_handle_*`;
`trade_updates` messages call only `_handle_order_update`; control frames are
logged; a frame whose parser returned `None` is skipped. -/
def handle_parsed_message {σ : Type} (feed : Feed) (m : MarketDataManager σ)
    (msg : ParsedMsg) (now : ℚ) (w : σ) (log : List String) :
    MarketDataManager σ × σ × List String :=
  match feed, msg with
  | _, .quote q => (m.update_latency_metrics q.timestamp now).handle_quote q w log
  | _, .trade t => (m.update_latency_metrics t.timestamp now).handle_trade t w log
  | _, .bar b => (m.update_latency_metrics b.timestamp now).handle_bar b w log
  | _, .orderUpdate u => m.handle_order_update u w log
  | _, .control => (m, w, log)
  | _, .malformed => (m, w, log)

/-- The ways control can leave the `async for message in self.websocket`
loop in `listen()` (identical in `AlpacaWebSocketClient.listen` and
`PolygonWebSocketClient.listen`): the `ConnectionClosed` handler, the
`WebSocketException` handler, the catch-all `Exception` handler, or the
message iterator ending without an exception (normal closure), which falls
off the end of the `try` block. -/
inductive ListenExit where
  | connectionClosed
  | wsError
  | otherError
  | streamEnd
  deriving DecidableEq, Repr

/-- The value of the adapter's `running` flag when `listen()` returns, as a
function of the flag at entry, whether a websocket object exists, and how the
loop exited.  The early return (`if not self.websocket or not self.running`)
leaves the flag untouched; each of the three `except` arms sets
`self.running = False`; a normal end of the message stream reaches the end of
the function without writing the flag. -/
def listen_final_running (hasWebsocket running_in : Bool)
    (exitKind : ListenExit) : Bool :=
  if ¬hasWebsocket ∨ ¬running_in then running_in
  else
    match exitKind with
    | .connectionClosed => false
    | .wsError => false
    | .otherError => false
    | .streamEnd => running_in

/-- State of `RedundantDataService` (`polygon_client.py`): the shared data
manager, the startup connected-flags, the two adapters' `running` flags, the
primary-source designation, the failover timeout and the service's own
`last_message_time` field (distinct from the manager's). -/
structure RedundantDataService (σ : Type) where
  data_manager : MarketDataManager σ
  alpaca_connected : Bool
  polygon_connected : Bool
  alpaca_running : Bool
  polygon_running : Bool
  primary_source : String
  failover_timeout : ℚ
  last_message_time : ℚ

namespace RedundantDataService

variable {σ : Type}

/-- `RedundantDataService.__init__` at wall-clock time `t0`
(`self.last_message_time = time.time()`): fresh manager, both feeds not yet
connected, primary `"alpaca"`, `failover_timeout = 5.0`. -/
def init (t0 : ℚ) : RedundantDataService σ where
  data_manager := MarketDataManager.init
  alpaca_connected := false
  polygon_connected := false
  alpaca_running := false
  polygon_running := false
  primary_source := "alpaca"
  failover_timeout := 5
  last_message_time := t0

/-- A message arriving on either feed adapter: both adapters dispatch into
the shared `self.data_manager`; no field of the `RedundantDataService`
object itself is written by the ingest path. -/
def on_message (s : RedundantDataService σ) (feed : Feed) (msg : ParsedMsg)
    (now : ℚ) (w : σ) (log : List String) :
    RedundantDataService σ × σ × List String :=
  let r := handle_parsed_message feed s.data_manager msg now w log
  ({ s with data_manager := r.1 }, r.2.1, r.2.2)

/-- `_handle_failover`: swap `primary_source` to the other feed when that
feed's startup connected-flag is set, else log and leave it unchanged. -/
def handle_failover (s : RedundantDataService σ) : RedundantDataService σ :=
  if s.primary_source = "alpaca" ∧ s.polygon_connected then
    { s with primary_source := "polygon" }
  else if s.primary_source = "polygon" ∧ s.alpaca_connected then
    { s with primary_source := "alpaca" }
  else
    s

/-- The staleness test of the monitor loop:
`current_time - self.last_message_time > self.failover_timeout`. -/
def stale (s : RedundantDataService σ) (now : ℚ) : Prop :=
  now - s.last_message_time > s.failover_timeout

instance (s : RedundantDataService σ) (now : ℚ) : Decidable (s.stale now) :=
  inferInstanceAs (Decidable (_ > _))

/-- One iteration of `_monitor_connections` at wall-clock time `now`: run
`_handle_failover` when stale, then (on the possibly already swapped primary)
the connection-status check that swaps away from a primary whose adapter's
`running` flag is cleared. -/
def monitor_tick (s : RedundantDataService σ) (now : ℚ) :
    RedundantDataService σ :=
  let s1 := if now - s.last_message_time > s.failover_timeout
    then s.handle_failover else s
  if s1.primary_source = "alpaca" ∧ ¬s1.alpaca_running then
    { s1 with primary_source := "polygon" }
  else if s1.primary_source = "polygon" ∧ ¬s1.polygon_running then
    { s1 with primary_source := "alpaca" }
  else
    s1

/-- `RedundantDataService.get_current_price`: the latest quote's mid-price
when a quote is cached, else `None`.  (No trade fallback: compare
`RealTimeDataService.get_current_price` in `websocket_client.py`.) -/
def get_current_price (s : RedundantDataService σ) (symbol : String) :
    Option ℚ :=
  match s.data_manager.get_latest_quote symbol with
  | some q => some q.mid_price
  | none => none

/-- The dict returned by `RedundantDataService.get_connection_status`. -/
structure ConnectionStatus where
  primary_source : String
  alpaca_connected : Bool
  polygon_connected : Bool
  last_message_age : ℚ
  total_messages : ℕ
  latency_stats : List (String × ℚ)
  deriving Repr

/-- `get_connection_status` at wall-clock time `now`: note that
`last_message_age` is computed from the service's own `last_message_time`
field, and the connected flags are conjunctions of the startup flag and the
adapter's current `running` flag. -/
def get_connection_status (s : RedundantDataService σ) (now : ℚ) :
    ConnectionStatus where
  primary_source := s.primary_source
  alpaca_connected := s.alpaca_connected && s.alpaca_running
  polygon_connected := s.polygon_connected && s.polygon_running
  last_message_age := now - s.last_message_time
  total_messages := s.data_manager.message_count
  latency_stats := s.data_manager.get_latency_stats now

end RedundantDataService

/-- `RealTimeDataService.get_current_price` (`websocket_client.py`): latest
quote's mid-price, falling back to the latest trade's price, else `None`.
This is the variant with the trade fallback; the coordinator's
`RedundantDataService.get_current_price` lacks it. -/
def realtime_get_current_price {σ : Type} (m : MarketDataManager σ)
    (symbol : String) : Option ℚ :=
  match m.get_latest_quote symbol with
  | some q => some q.mid_price
  | none =>
    match m.get_latest_trade symbol with
    | some t => some t.price
    | none => none

/-- Run a whole arrival sequence through the shared manager: each list entry
is (producing feed, parsed message, wall-clock arrival time), applied in
order via `handle_parsed_message` exactly as the two listen loops do. -/
def ingest_all {σ : Type} (m : MarketDataManager σ) :
    List (Feed × ParsedMsg × ℚ) → σ → List String →
    MarketDataManager σ × σ × List String
  | [], w, log => (m, w, log)
  | (f, msg, now) :: rest, w, log =>
    let r := handle_parsed_message f m msg now w log
    ingest_all r.1 rest r.2.1 r.2.2

/-- Specification-side characterization (from the spec's words, for
comparison with the code): the most recently ingested quote for symbol `s`
in an arrival sequence, ignoring which feed produced it. -/
def lastQuoteFor (s : String) : List (Feed × ParsedMsg × ℚ) → Option Quote
  | [] => none
  | (_, msg, _) :: rest =>
    match lastQuoteFor s rest with
    | some q => some q
    | none =>
      match msg with
      | .quote q => if s = q.symbol then some q else none
      | _ => none

/-- Specification-side: the most recently ingested trade for symbol `s`. -/
def lastTradeFor (s : String) : List (Feed × ParsedMsg × ℚ) → Option Trade
  | [] => none
  | (_, msg, _) :: rest =>
    match lastTradeFor s rest with
    | some t => some t
    | none =>
      match msg with
      | .trade t => if s = t.symbol then some t else none
      | _ => none

/-- Specification-side: the most recently ingested bar for symbol `s`. -/
def lastBarFor (s : String) : List (Feed × ParsedMsg × ℚ) → Option Bar
  | [] => none
  | (_, msg, _) :: rest =>
    match lastBarFor s rest with
    | some b => some b
    | none =>
      match msg with
      | .bar b => if s = b.symbol then some b else none
      | _ => none

section ConcreteValues

/-- A concrete quote used by the concrete-run theorems: AAPL bid 100.00,
ask 100.10, event timestamp 4. -/
def demoQuote : Quote where
  symbol := "AAPL"
  bid_price := 100
  ask_price := 100 + 1/10
  bid_size := 10
  ask_size := 10
  timestamp := 4

/-- A concrete trade: AAPL at price 5, event timestamp 3. -/
def demoTrade : Trade where
  symbol := "AAPL"
  price := 5
  size := 100
  timestamp := 3

/-- A quote with a negative mid-price (`bid = -2`, `ask = 0`), exercising the
`mid_price > 0` guard of `spread_bps`. -/
def negQuote : Quote where
  symbol := "X"
  bid_price := -2
  ask_price := 0
  bid_size := 1
  ask_size := 1
  timestamp := 0

/-- A callback (world `Bool`, the flag) that always raises. -/
def raisingCb : Callback Bool Quote := fun _ w => (w, some "boom")

/-- A callback that sets the flag world to `true` and returns normally. -/
def flagCb : Callback Bool Quote := fun _ _ => (true, none)

/-- A service as it stands right after a successful `start()` on both feeds,
constructed at wall-clock time 0: both connected-flags set, both adapters
running (world type `Unit`). -/
def serviceBoth : RedundantDataService Unit :=
  { RedundantDataService.init 0 with
      alpaca_connected := true
      polygon_connected := true
      alpaca_running := true
      polygon_running := true }

/-- A service constructed at time 0 whose adapters have both died and whose
startup connect attempts both failed (no feed connected, none running). -/
def serviceNone : RedundantDataService Unit :=
  RedundantDataService.init 0

end ConcreteValues

end Daybot

namespace Daybot

namespace RedundantDataService

variable {σ : Type}

/-- `_handle_failover` writes only `primary_source`. -/
theorem handle_failover_frame (s : RedundantDataService σ) :
    s.handle_failover.data_manager = s.data_manager ∧
    s.handle_failover.alpaca_connected = s.alpaca_connected ∧
    s.handle_failover.polygon_connected = s.polygon_connected ∧
    s.handle_failover.alpaca_running = s.alpaca_running ∧
    s.handle_failover.polygon_running = s.polygon_running ∧
    s.handle_failover.failover_timeout = s.failover_timeout ∧
    s.handle_failover.last_message_time = s.last_message_time := by
  unfold handle_failover
  split_ifs <;> simp

/-- `monitor_tick` writes only `primary_source`; every other field of the
service, including the shared data manager, is untouched by a monitor
iteration. -/
theorem monitor_tick_frame (s : RedundantDataService σ) (now : ℚ) :
    (s.monitor_tick now).data_manager = s.data_manager ∧
    (s.monitor_tick now).alpaca_connected = s.alpaca_connected ∧
    (s.monitor_tick now).polygon_connected = s.polygon_connected ∧
    (s.monitor_tick now).alpaca_running = s.alpaca_running ∧
    (s.monitor_tick now).polygon_running = s.polygon_running ∧
    (s.monitor_tick now).failover_timeout = s.failover_timeout ∧
    (s.monitor_tick now).last_message_time = s.last_message_time := by
  obtain ⟨h1, h2, h3, h4, h5, h6, h7⟩ := handle_failover_frame s
  refine ⟨?_, ?_, ?_, ?_, ?_, ?_, ?_⟩ <;>
    simp [monitor_tick, apply_ite data_manager, apply_ite alpaca_connected,
      apply_ite polygon_connected, apply_ite alpaca_running,
      apply_ite polygon_running, apply_ite failover_timeout,
      apply_ite last_message_time, h1, h2, h3, h4, h5, h6, h7]

/-- A stale tick with primary `"alpaca"`: when the Polygon startup
connected-flag is set and the Polygon adapter is running, the tick swaps the
primary to `"polygon"`. -/
theorem monitor_tick_stale_to_polygon (s : RedundantDataService σ) (now : ℚ)
    (h : now - s.last_message_time > s.failover_timeout)
    (hp : s.primary_source = "alpaca") (hc : s.polygon_connected = true)
    (hr : s.polygon_running = true) :
    (s.monitor_tick now).primary_source = "polygon" := by
  simp [monitor_tick, handle_failover, h, hp, hc, hr]

/-- A stale tick with primary `"polygon"`: when the Alpaca startup
connected-flag is set and the Alpaca adapter is running, the tick swaps the
primary back to `"alpaca"`. -/
theorem monitor_tick_stale_to_alpaca (s : RedundantDataService σ) (now : ℚ)
    (h : now - s.last_message_time > s.failover_timeout)
    (hp : s.primary_source = "polygon") (hc : s.alpaca_connected = true)
    (hr : s.alpaca_running = true) :
    (s.monitor_tick now).primary_source = "alpaca" := by
  simp [monitor_tick, handle_failover, h, hp, hc, hr]

/-- A stale tick with primary `"alpaca"` while Polygon is not connected and
the Alpaca adapter is still running: the primary does not change. -/
theorem monitor_tick_stale_no_backup (s : RedundantDataService σ) (now : ℚ)
    (h : now - s.last_message_time > s.failover_timeout)
    (hp : s.primary_source = "alpaca") (hc : s.polygon_connected = false)
    (hr : s.alpaca_running = true) :
    (s.monitor_tick now).primary_source = "alpaca" := by
  simp [monitor_tick, handle_failover, h, hp, hc, hr]

/-- A stale tick with primary `"alpaca"` while Polygon is not connected but
the Alpaca adapter has stopped running: the connection-status check still
swaps the primary to `"polygon"` even though no feed is connected. -/
theorem monitor_tick_stale_dead_primary (s : RedundantDataService σ) (now : ℚ)
    (h : now - s.last_message_time > s.failover_timeout)
    (hp : s.primary_source = "alpaca") (hc : s.polygon_connected = false)
    (hr : s.alpaca_running = false) :
    (s.monitor_tick now).primary_source = "polygon" := by
  simp [monitor_tick, handle_failover, h, hp, hc, hr]

end RedundantDataService

end Daybot

namespace Daybot

/-- A concrete manager with two quote callbacks registered for AAPL: the
first always raises, the second sets the flag world to `true`. -/
def managerTwoCallbacks : MarketDataManager Bool :=
  ((MarketDataManager.init (σ := Bool)).subscribe_quotes "AAPL" raisingCb).subscribe_quotes
    "AAPL" flagCb

/-- C5: for every ingest dispatch, a callback that raises is caught and
logged and every callback registered after it is still invoked.  The first
conjunct is the general isolation law of the shared dispatch loop: a raising
callback at the head only appends its message to the error log, and dispatch
proceeds with the remaining callbacks.  The second conjunct runs the concrete
two-callback scenario through `_handle_quote`: the first callback raises, yet
the flag set by the second callback is `true` and the exception was logged. -/
theorem c5_callback_isolation :
    (∀ (σ α : Type) (c : Callback σ α) (rest : List (Callback σ α)) (v : α)
        (w : σ) (log : List String) (w1 : σ) (e : String),
      c v w = (w1, some e) →
        dispatchCallbacks (c :: rest) v w log =
          dispatchCallbacks rest v w1 (log ++ [e])) ∧
    (managerTwoCallbacks.handle_quote demoQuote false []).2 = (true, ["boom"]) := by
  constructor
  · intro σ α c rest v w log w1 e h
    simp [dispatchCallbacks, h]
  · rfl

/-- C5 witness: the isolation law applied at the concrete raising callback —
dispatch over `[raisingCb, flagCb]` continues past the raising head. -/
theorem c5_witness :
    dispatchCallbacks [raisingCb, flagCb] demoQuote false [] =
      dispatchCallbacks [flagCb] demoQuote false ([] ++ ["boom"]) :=
  c5_callback_isolation.1 Bool Quote raisingCb [flagCb] demoQuote false [] false "boom" rfl

/-- C6 counterexample: when the message stream ends without an exception
(normal closure exhausts the `async for` iterator), `listen` returns with
the `running` flag still `true`, contradicting the claim that every way the
loop can exit clears it. -/
theorem c6_counterexample :
    listen_final_running true true ListenExit.streamEnd = true := by
  decide

/-- C6 (amended): entered with the `running` flag set and a websocket
present, `listen` clears `running` on every exceptional exit (connection
closed, WebSocket error, any other exception) but leaves it set when the
message stream ends without an exception. -/
theorem c6_listen_running :
    ∀ ek : ListenExit,
      listen_final_running true true ek =
        (if ek = ListenExit.streamEnd then true else false) := by
  intro ek
  cases ek <;> rfl

/-- C7 counterexample: on an empty latency buffer the dict returned by
`get_latency_stats` has no `message_count` and no `messages_per_second`
key, contradicting the claim that the empty-buffer record contains the
count and throughput fields. -/
theorem c7_counterexample :
    ((MarketDataManager.init (σ := Unit)).get_latency_stats 0).lookup
        "message_count" = none ∧
    ((MarketDataManager.init (σ := Unit)).get_latency_stats 0).lookup
        "messages_per_second" = none :=
  ⟨rfl, rfl⟩

/-- C7 (amended): when the latency sample buffer is empty, `get_latency_stats`
returns (without raising) the three-key dict with `avg_latency_ms`,
`min_latency_ms` and `max_latency_ms` all zero; the count and throughput
keys are present only in the nonempty branch. -/
theorem c7_empty_stats :
    ∀ (σ : Type) (m : MarketDataManager σ) (now : ℚ),
      m.latency_samples = [] →
      m.get_latency_stats now =
        [("avg_latency_ms", 0), ("min_latency_ms", 0), ("max_latency_ms", 0)] := by
  intro σ m now h
  simp [MarketDataManager.get_latency_stats, h]

/-- C7 witness: the empty-buffer stats of a freshly constructed manager. -/
theorem c7_empty_stats_witness :
    (MarketDataManager.init (σ := Unit)).get_latency_stats 0 =
      [("avg_latency_ms", 0), ("min_latency_ms", 0), ("max_latency_ms", 0)] :=
  c7_empty_stats Unit MarketDataManager.init 0 rfl

/-- C8 counterexample: for the quote with `bid = -2`, `ask = 0` the mid-price
is `-1 ≠ 0`, yet `spread_bps` is `0` while `spread / mid_price * 10000` is
`-20000`: the source guards on `mid_price > 0`, not on `mid_price ≠ 0`, so
the claimed formula fails for a non-positive nonzero mid-price. -/
theorem c8_counterexample :
    negQuote.mid_price ≠ 0 ∧
    negQuote.spread_bps = 0 ∧
    negQuote.spread / negQuote.mid_price * 10000 = -20000 := by
  refine ⟨?_, ?_, ?_⟩ <;>
    norm_num [Quote.spread_bps, Quote.spread, Quote.mid_price, negQuote]

/-- C8 (amended): for every quote, `mid_price = (bid + ask) / 2` and
`spread = ask - bid`; `spread_bps = spread / mid_price * 10000` whenever the
mid-price is positive and `0` whenever it is not (in particular when it is
0); and for bid 100.00, ask 100.10 the mid-price is exactly 100.05 and
`spread_bps` is within 0.01 of 9.99. -/
theorem c8_quote_derived_fields :
    (∀ q : Quote,
      q.mid_price = (q.bid_price + q.ask_price) / 2 ∧
      q.spread = q.ask_price - q.bid_price ∧
      (q.mid_price > 0 → q.spread_bps = q.spread / q.mid_price * 10000) ∧
      (¬q.mid_price > 0 → q.spread_bps = 0)) ∧
    demoQuote.mid_price = 2001 / 20 ∧
    |demoQuote.spread_bps - 999 / 100| < 1 / 100 := by
  refine ⟨fun q => ⟨rfl, rfl, fun h => if_pos h, fun h => if_neg h⟩, ?_, ?_⟩
  · norm_num [Quote.mid_price, demoQuote]
  · norm_num [Quote.spread_bps, Quote.spread, Quote.mid_price, demoQuote]
    rw [abs_lt]
    constructor <;> norm_num

/-- C8 witness: the positive-mid branch of the amended claim applied at the
bid 100.00 / ask 100.10 quote. -/
theorem c8_witness :
    demoQuote.spread_bps = demoQuote.spread / demoQuote.mid_price * 10000 :=
  (c8_quote_derived_fields.1 demoQuote).2.2.1
    (by norm_num [Quote.mid_price, demoQuote])

/-- C9: a quote ingest writes exactly the quote cache entry of its own
symbol — every other symbol's quote entry, the whole trade and bar caches,
every callback registry and the latency metrics are unchanged — and
correspondingly a trade (resp. bar) ingest writes only the trade (resp. bar)
entry of its own symbol. -/
theorem c9_ingest_frame :
    ∀ (σ : Type) (m : MarketDataManager σ) (w : σ) (log : List String),
      (∀ q : Quote,
        ((m.handle_quote q w log).1.latest_quotes = fun s =>
            if s = q.symbol then some q else m.latest_quotes s) ∧
        (m.handle_quote q w log).1.latest_trades = m.latest_trades ∧
        (m.handle_quote q w log).1.latest_bars = m.latest_bars ∧
        (m.handle_quote q w log).1.quote_callbacks = m.quote_callbacks ∧
        (m.handle_quote q w log).1.trade_callbacks = m.trade_callbacks ∧
        (m.handle_quote q w log).1.bar_callbacks = m.bar_callbacks ∧
        (m.handle_quote q w log).1.order_callbacks = m.order_callbacks ∧
        (m.handle_quote q w log).1.message_count = m.message_count ∧
        (m.handle_quote q w log).1.last_message_time = m.last_message_time ∧
        (m.handle_quote q w log).1.latency_samples = m.latency_samples) ∧
      (∀ t : Trade,
        ((m.handle_trade t w log).1.latest_trades = fun s =>
            if s = t.symbol then some t else m.latest_trades s) ∧
        (m.handle_trade t w log).1.latest_quotes = m.latest_quotes ∧
        (m.handle_trade t w log).1.latest_bars = m.latest_bars ∧
        (m.handle_trade t w log).1.quote_callbacks = m.quote_callbacks ∧
        (m.handle_trade t w log).1.trade_callbacks = m.trade_callbacks ∧
        (m.handle_trade t w log).1.bar_callbacks = m.bar_callbacks ∧
        (m.handle_trade t w log).1.order_callbacks = m.order_callbacks) ∧
      (∀ b : Bar,
        ((m.handle_bar b w log).1.latest_bars = fun s =>
            if s = b.symbol then some b else m.latest_bars s) ∧
        (m.handle_bar b w log).1.latest_quotes = m.latest_quotes ∧
        (m.handle_bar b w log).1.latest_trades = m.latest_trades ∧
        (m.handle_bar b w log).1.quote_callbacks = m.quote_callbacks ∧
        (m.handle_bar b w log).1.trade_callbacks = m.trade_callbacks ∧
        (m.handle_bar b w log).1.bar_callbacks = m.bar_callbacks ∧
        (m.handle_bar b w log).1.order_callbacks = m.order_callbacks) :=
  fun _ _ _ _ =>
    ⟨fun _ => ⟨rfl, rfl, rfl, rfl, rfl, rfl, rfl, rfl, rfl, rfl⟩,
     fun _ => ⟨rfl, rfl, rfl, rfl, rfl, rfl, rfl⟩,
     fun _ => ⟨rfl, rfl, rfl, rfl, rfl, rfl, rfl⟩⟩

/-- C10: dispatching an order update through either adapter's message
handler leaves the whole manager state unchanged (no latency sample, no
message-count increment, no `last_message_time` update, no cache write) and
only invokes the global order callbacks; by contrast a quote, trade or bar
message increments `message_count` and sets `last_message_time` to the
arrival time. -/
theorem c10_order_update_frame :
    ∀ (σ : Type) (feed : Feed) (m : MarketDataManager σ) (u : OrderUpdate)
      (now : ℚ) (w : σ) (log : List String),
      (handle_parsed_message feed m (.orderUpdate u) now w log).1 = m ∧
      (handle_parsed_message feed m (.orderUpdate u) now w log).2 =
        dispatchCallbacks m.order_callbacks u w log ∧
      (∀ q : Quote,
        (handle_parsed_message feed m (.quote q) now w log).1.message_count =
          m.message_count + 1 ∧
        (handle_parsed_message feed m (.quote q) now w log).1.last_message_time =
          now) ∧
      (∀ t : Trade,
        (handle_parsed_message feed m (.trade t) now w log).1.message_count =
          m.message_count + 1 ∧
        (handle_parsed_message feed m (.trade t) now w log).1.last_message_time =
          now) ∧
      (∀ b : Bar,
        (handle_parsed_message feed m (.bar b) now w log).1.message_count =
          m.message_count + 1 ∧
        (handle_parsed_message feed m (.bar b) now w log).1.last_message_time =
          now) := by
  intro σ feed m u now w log
  cases feed <;>
    exact ⟨rfl, rfl, fun _ => ⟨rfl, rfl⟩, fun _ => ⟨rfl, rfl⟩, fun _ => ⟨rfl, rfl⟩⟩

end Daybot

namespace Daybot

/-- The quote cache after an arrival sequence: the most recent quote for the
symbol in the sequence, else whatever the cache held before. -/
theorem ingest_all_latest_quotes {σ : Type} (items : List (Feed × ParsedMsg × ℚ)) :
    ∀ (m : MarketDataManager σ) (w : σ) (log : List String) (s : String),
      ((ingest_all m items w log).1).latest_quotes s =
        match lastQuoteFor s items with
        | some q => some q
        | none => m.latest_quotes s := by
  induction items with
  | nil => intro m w log s; rfl
  | cons it rest ih =>
    obtain ⟨f, msg, now⟩ := it
    intro m w log s
    rw [show ingest_all m ((f, msg, now) :: rest) w log =
        ingest_all (handle_parsed_message f m msg now w log).1 rest
          (handle_parsed_message f m msg now w log).2.1
          (handle_parsed_message f m msg now w log).2.2 from rfl]
    rw [ih]
    cases hrest : lastQuoteFor s rest with
    | some q => simp [lastQuoteFor, hrest]
    | none =>
      cases msg with
      | quote q =>
        by_cases hs : s = q.symbol
        · subst hs
          cases f <;>
            simp [lastQuoteFor, hrest, handle_parsed_message,
              MarketDataManager.handle_quote, MarketDataManager.update_latency_metrics]
        · cases f <;>
            simp [lastQuoteFor, hrest, hs, handle_parsed_message,
              MarketDataManager.handle_quote, MarketDataManager.update_latency_metrics]
      | trade t =>
        cases f <;>
          simp [lastQuoteFor, hrest, handle_parsed_message,
            MarketDataManager.handle_trade, MarketDataManager.update_latency_metrics]
      | bar b =>
        cases f <;>
          simp [lastQuoteFor, hrest, handle_parsed_message,
            MarketDataManager.handle_bar, MarketDataManager.update_latency_metrics]
      | orderUpdate u =>
        cases f <;>
          simp [lastQuoteFor, hrest, handle_parsed_message,
            MarketDataManager.handle_order_update]
      | control => cases f <;> simp [lastQuoteFor, hrest, handle_parsed_message]
      | malformed => cases f <;> simp [lastQuoteFor, hrest, handle_parsed_message]

/-- The trade cache after an arrival sequence. -/
theorem ingest_all_latest_trades {σ : Type} (items : List (Feed × ParsedMsg × ℚ)) :
    ∀ (m : MarketDataManager σ) (w : σ) (log : List String) (s : String),
      ((ingest_all m items w log).1).latest_trades s =
        match lastTradeFor s items with
        | some t => some t
        | none => m.latest_trades s := by
  induction items with
  | nil => intro m w log s; rfl
  | cons it rest ih =>
    obtain ⟨f, msg, now⟩ := it
    intro m w log s
    rw [show ingest_all m ((f, msg, now) :: rest) w log =
        ingest_all (handle_parsed_message f m msg now w log).1 rest
          (handle_parsed_message f m msg now w log).2.1
          (handle_parsed_message f m msg now w log).2.2 from rfl]
    rw [ih]
    cases hrest : lastTradeFor s rest with
    | some t => simp [lastTradeFor, hrest]
    | none =>
      cases msg with
      | quote q =>
        cases f <;>
          simp [lastTradeFor, hrest, handle_parsed_message,
            MarketDataManager.handle_quote, MarketDataManager.update_latency_metrics]
      | trade t =>
        by_cases hs : s = t.symbol
        · subst hs
          cases f <;>
            simp [lastTradeFor, hrest, handle_parsed_message,
              MarketDataManager.handle_trade, MarketDataManager.update_latency_metrics]
        · cases f <;>
            simp [lastTradeFor, hrest, hs, handle_parsed_message,
              MarketDataManager.handle_trade, MarketDataManager.update_latency_metrics]
      | bar b =>
        cases f <;>
          simp [lastTradeFor, hrest, handle_parsed_message,
            MarketDataManager.handle_bar, MarketDataManager.update_latency_metrics]
      | orderUpdate u =>
        cases f <;>
          simp [lastTradeFor, hrest, handle_parsed_message,
            MarketDataManager.handle_order_update]
      | control => cases f <;> simp [lastTradeFor, hrest, handle_parsed_message]
      | malformed => cases f <;> simp [lastTradeFor, hrest, handle_parsed_message]

/-- The bar cache after an arrival sequence. -/
theorem ingest_all_latest_bars {σ : Type} (items : List (Feed × ParsedMsg × ℚ)) :
    ∀ (m : MarketDataManager σ) (w : σ) (log : List String) (s : String),
      ((ingest_all m items w log).1).latest_bars s =
        match lastBarFor s items with
        | some b => some b
        | none => m.latest_bars s := by
  induction items with
  | nil => intro m w log s; rfl
  | cons it rest ih =>
    obtain ⟨f, msg, now⟩ := it
    intro m w log s
    rw [show ingest_all m ((f, msg, now) :: rest) w log =
        ingest_all (handle_parsed_message f m msg now w log).1 rest
          (handle_parsed_message f m msg now w log).2.1
          (handle_parsed_message f m msg now w log).2.2 from rfl]
    rw [ih]
    cases hrest : lastBarFor s rest with
    | some b => simp [lastBarFor, hrest]
    | none =>
      cases msg with
      | quote q =>
        cases f <;>
          simp [lastBarFor, hrest, handle_parsed_message,
            MarketDataManager.handle_quote, MarketDataManager.update_latency_metrics]
      | trade t =>
        cases f <;>
          simp [lastBarFor, hrest, handle_parsed_message,
            MarketDataManager.handle_trade, MarketDataManager.update_latency_metrics]
      | bar b =>
        by_cases hs : s = b.symbol
        · subst hs
          cases f <;>
            simp [lastBarFor, hrest, handle_parsed_message,
              MarketDataManager.handle_bar, MarketDataManager.update_latency_metrics]
        · cases f <;>
            simp [lastBarFor, hrest, hs, handle_parsed_message,
              MarketDataManager.handle_bar, MarketDataManager.update_latency_metrics]
      | orderUpdate u =>
        cases f <;>
          simp [lastBarFor, hrest, handle_parsed_message,
            MarketDataManager.handle_order_update]
      | control => cases f <;> simp [lastBarFor, hrest, handle_parsed_message]
      | malformed => cases f <;> simp [lastBarFor, hrest, handle_parsed_message]

/-- C4: starting from a fresh manager, after any arrival sequence from
either feed, `get_latest_quote` returns exactly the most recently ingested
quote for the symbol (`none`, not an error, when the sequence contains no
quote for it), regardless of which feed produced each message; and likewise
for trades (`get_latest_trade`) and bars (`get_latest_bar`). -/
theorem c4_latest_wins :
    ∀ (σ : Type) (items : List (Feed × ParsedMsg × ℚ)) (w : σ)
      (log : List String) (s : String),
      ((ingest_all (MarketDataManager.init (σ := σ)) items w log).1).get_latest_quote s =
        lastQuoteFor s items ∧
      ((ingest_all (MarketDataManager.init (σ := σ)) items w log).1).get_latest_trade s =
        lastTradeFor s items ∧
      ((ingest_all (MarketDataManager.init (σ := σ)) items w log).1).get_latest_bar s =
        lastBarFor s items := by
  intro σ items w log s
  refine ⟨?_, ?_, ?_⟩
  · rw [MarketDataManager.get_latest_quote, ingest_all_latest_quotes]
    cases lastQuoteFor s items <;> rfl
  · rw [MarketDataManager.get_latest_trade, ingest_all_latest_trades]
    cases lastTradeFor s items <;> rfl
  · rw [MarketDataManager.get_latest_bar, ingest_all_latest_bars]
    cases lastBarFor s items <;> rfl

end Daybot

namespace Daybot

/-- The started service after a single Polygon trade for AAPL arrived at
wall-clock time 3 (no quote has arrived). -/
def serviceAfterTrade : RedundantDataService Unit :=
  (serviceBoth.on_message .polygon (.trade demoTrade) 3 () []).1

/-- The started service after a single Alpaca quote for AAPL arrived at
wall-clock time 4. -/
def serviceAfterQuote : RedundantDataService Unit :=
  (serviceBoth.on_message .alpaca (.quote demoQuote) 4 () []).1

/-- C3 counterexample: after a trade (price 5) for AAPL has been ingested and
no quote has, the coordinator's `get_current_price` returns `None` instead of
the latest trade's price — `RedundantDataService.get_current_price` has no
trade fallback. -/
theorem c3_counterexample :
    serviceAfterTrade.data_manager.get_latest_trade "AAPL" = some demoTrade ∧
    serviceAfterTrade.get_current_price "AAPL" = none :=
  ⟨rfl, rfl⟩

/-- C3 (amended): the coordinator's `CurrentPrice` returns the latest quote's
mid-price when a quote for the symbol has been ingested and otherwise `None`,
even when a trade for the symbol has been ingested (and it never raises: it
is a total function into `Option`); the quote-then-trade fallback described
by the claim is implemented only by `RealTimeDataService.get_current_price`. -/
theorem c3_current_price :
    (∀ (σ : Type) (s : RedundantDataService σ) (symbol : String),
      s.get_current_price symbol =
        (s.data_manager.get_latest_quote symbol).map Quote.mid_price) ∧
    (∀ (σ : Type) (s : RedundantDataService σ) (symbol : String) (t : Trade),
      s.data_manager.get_latest_quote symbol = none →
      s.data_manager.get_latest_trade symbol = some t →
      s.get_current_price symbol = none) ∧
    (∀ (σ : Type) (m : MarketDataManager σ) (symbol : String) (t : Trade),
      m.get_latest_quote symbol = none →
      m.get_latest_trade symbol = some t →
      realtime_get_current_price m symbol = some t.price) := by
  refine ⟨?_, ?_, ?_⟩
  · intro σ s symbol
    unfold RedundantDataService.get_current_price
    cases s.data_manager.get_latest_quote symbol <;> rfl
  · intro σ s symbol t hq _
    unfold RedundantDataService.get_current_price
    rw [hq]
  · intro σ m symbol t hq ht
    unfold realtime_get_current_price
    rw [hq, ht]

/-- C3 witness: the amended claim applied at the concrete after-trade state:
the coordinator returns `None`, the real-time service returns the trade
price 5. -/
theorem c3_witness :
    serviceAfterTrade.get_current_price "AAPL" = none ∧
    realtime_get_current_price serviceAfterTrade.data_manager "AAPL" =
      some demoTrade.price :=
  ⟨c3_current_price.2.1 Unit serviceAfterTrade "AAPL" demoTrade rfl rfl,
   c3_current_price.2.2 Unit serviceAfterTrade.data_manager "AAPL" demoTrade rfl rfl⟩

/-- C1 (code bug): no successful ingest ever updates the coordinator's own
`last_message_time` — `on_message` (either feed, any message) preserves it,
so it keeps its construction-time value; only the shared manager's
`last_message_time` is updated.  Concretely: the service constructed at time
0 that ingested a quote at time 4 still has `last_message_time = 0`, so at
time 6 the monitor's staleness comparison fires (6 − 0 > 5) and
`get_connection_status` reports a last-message age of 6, although the most
recent successfully ingested message is only 2 seconds old (2 ≤ 5). -/
theorem c1_last_message_time_never_updated :
    (∀ (σ : Type) (s : RedundantDataService σ) (feed : Feed) (msg : ParsedMsg)
        (now : ℚ) (w : σ) (log : List String),
      ((s.on_message feed msg now w log).1).last_message_time =
        s.last_message_time) ∧
    serviceAfterQuote.data_manager.last_message_time = 4 ∧
    serviceAfterQuote.last_message_time = 0 ∧
    serviceAfterQuote.stale 6 ∧
    (serviceAfterQuote.get_connection_status 6).last_message_age = 6 ∧
    6 - serviceAfterQuote.data_manager.last_message_time ≤
      serviceAfterQuote.failover_timeout := by
  refine ⟨fun σ s feed msg now w log => rfl, rfl, rfl, ?_, ?_, ?_⟩
  · show (6 : ℚ) - 0 > 5
    norm_num
  · show (6 : ℚ) - 0 = 6
    norm_num
  · show (6 : ℚ) - 4 ≤ 5
    norm_num

/-- C2 counterexample: with both feeds connected and running and no message
ever ingested (one single stale window starting at construction time 0), the
monitor ticks at times 6 and 7 flip `primary_source` twice — alpaca to
polygon and back to alpaca — not exactly once; and on a service with no feed
connected whose adapters have stopped, the tick at time 6 still flips the
primary from alpaca to polygon. -/
theorem c2_counterexample :
    (serviceBoth.monitor_tick 6).primary_source = "polygon" ∧
    ((serviceBoth.monitor_tick 6).monitor_tick 7).primary_source = "alpaca" ∧
    (serviceNone.monitor_tick 6).primary_source = "polygon" := by
  have frame := RedundantDataService.monitor_tick_frame serviceBoth 6
  have h1 : (serviceBoth.monitor_tick 6).primary_source = "polygon" :=
    RedundantDataService.monitor_tick_stale_to_polygon serviceBoth 6
      (by show (6 : ℚ) - 0 > 5; norm_num) rfl rfl rfl
  refine ⟨h1, ?_, ?_⟩
  · exact RedundantDataService.monitor_tick_stale_to_alpaca
      (serviceBoth.monitor_tick 6) 7
      (by rw [frame.2.2.2.2.2.2, frame.2.2.2.2.2.1]; show (7 : ℚ) - 0 > 5; norm_num)
      h1
      (frame.2.1.trans rfl)
      (frame.2.2.2.1.trans rfl)
  · exact RedundantDataService.monitor_tick_stale_dead_primary serviceNone 6
      (by show (6 : ℚ) - 0 > 5; norm_num) rfl rfl rfl

/-- C2 (amended): on every monitor tick inside a stale window the failover
logic swaps `primary_source` to the other feed whenever that feed's startup
connected-flag is set — so with both feeds connected the primary flips on
every stale tick (alternating), not exactly once per stale window; when the
other feed is not connected the staleness path leaves the primary alone, but
the connection-status check still swaps away from a primary whose adapter
has stopped running, even when no feed is connected; the primary is
unchanged on a stale tick only when the other feed is unconnected and the
primary's adapter is still running. -/
theorem c2_failover_per_tick :
    ∀ (σ : Type) (s : RedundantDataService σ) (now : ℚ),
      now - s.last_message_time > s.failover_timeout →
      ((s.primary_source = "alpaca" → s.polygon_connected = true →
          s.polygon_running = true →
          (s.monitor_tick now).primary_source = "polygon") ∧
       (s.primary_source = "polygon" → s.alpaca_connected = true →
          s.alpaca_running = true →
          (s.monitor_tick now).primary_source = "alpaca") ∧
       (s.primary_source = "alpaca" → s.polygon_connected = false →
          s.alpaca_running = true →
          (s.monitor_tick now).primary_source = "alpaca") ∧
       (s.primary_source = "alpaca" → s.polygon_connected = false →
          s.alpaca_running = false →
          (s.monitor_tick now).primary_source = "polygon")) := by
  intro σ s now h
  exact ⟨fun hp hc hr => RedundantDataService.monitor_tick_stale_to_polygon s now h hp hc hr,
         fun hp hc hr => RedundantDataService.monitor_tick_stale_to_alpaca s now h hp hc hr,
         fun hp hc hr => RedundantDataService.monitor_tick_stale_no_backup s now h hp hc hr,
         fun hp hc hr => RedundantDataService.monitor_tick_stale_dead_primary s now h hp hc hr⟩

/-- C2 witness: the amended claim applied at the concrete both-feeds service,
stale at time 6: the tick swaps alpaca to polygon. -/
theorem c2_failover_per_tick_witness :
    (serviceBoth.monitor_tick 6).primary_source = "polygon" :=
  (c2_failover_per_tick Unit serviceBoth 6
    (by show (6 : ℚ) - 0 > 5; norm_num)).1 rfl rfl rfl

end Daybot
